import Mathlib

/-!
Shallow embedding of the credential/session core of the ProtectedRoutes
repository (TypeScript, Express + jsonwebtoken + bcryptjs).

Embedded source files:
* `src/utils/jwt.utils.ts` (src/unnamed/part_001): `generateToken`,
  `generateRefreshToken`, `verifyToken`.
* `src/controllers/authController.ts`: `login`, `refreshToken`.
* `src/middleware/authMiddleware.ts` (third section of User.ts bundle):
  `authenticate`, `authorize`, `optionalAuth`.
* `src/utils/auth.ts` (third section of authController.ts bundle):
  `protectRoute`.

Modelling conventions:
* The `jsonwebtoken` library is modelled by a `Jwt` record carrying the
  signed claims, issuer, audience, optional expiry instant (seconds) and
  the key it was signed with; signature validity is "signed with the key
  the verifier supplies" (standard unforgeability assumption).  A raw
  token string is either a well-formed `Jwt` or `garbage` (structurally
  malformed).  `jwt.verify` checks, in the library's order: structure,
  signature, expiry (`TokenExpiredError` when `exp <= clock`), audience,
  issuer.
* `process.env` is an explicit `Env` value (`JWT_SECRET`,
  `JWT_EXPIRES_IN` in seconds).
* The Mongo user store is a `List UserRec`; `findOne`/`findById` are
  `List.find?`.  `bcrypt.compare` is an abstract oracle
  `cmp : String → String → Bool` (candidate secret, stored digest).
* Thrown exceptions become `Except`/constructor results; an HTTP response
  `res.status(s).json({message: m})` becomes a `(status, message)`
  outcome constructor.
-/

namespace ProtectedRoutes

/-- Access-token payload (`TokenPayload` in jwt.utils.ts): `{id, email, role}`. -/
structure TokenPayload where
  id : String
  email : String
  role : String
deriving DecidableEq

/-- Refresh-token payload (`RefreshTokenPayload` in jwt.utils.ts): `{id}` only. -/
structure RefreshTokenPayload where
  id : String
deriving DecidableEq

/-- The claims actually embedded in a signed token: one of the two payload shapes. -/
inductive JwtClaims where
  | access (p : TokenPayload)
  | refresh (p : RefreshTokenPayload)
deriving DecidableEq

/-- A well-formed signed JWT: claims, registered claims, and the signing key
(standing for the HMAC signature). -/
structure Jwt where
  claims : JwtClaims
  iss : String
  aud : String
  iat : Nat
  exp : Option Nat
  key : String
deriving DecidableEq

/-- A raw token string: either a structurally well-formed JWT or garbage
(on which `jwt.verify` raises `JsonWebTokenError: jwt malformed`). -/
inductive TokenStr where
  | jwt (t : Jwt)
  | garbage (s : String)
deriving DecidableEq

/-- Errors thrown by the jwt utilities (`Error` for a missing secret, and the
`jsonwebtoken` error classes). -/
inductive JwtError where
  | noSecret
  | malformed
  | badSignature
  | expired
  | audienceMismatch
  | issuerMismatch
deriving DecidableEq

/-- The environment configuration read from `process.env`:
`JWT_SECRET` and `JWT_EXPIRES_IN` (modelled in seconds; `none` when unset). -/
structure Env where
  jwtSecret : Option String
  jwtExpiresIn : Option Nat
deriving DecidableEq

/-- `jwt.verify(tokenString, secret, {issuer?, audience?})` at clock time `now`
(seconds).  Checks in the library's order: structure, signature, expiry
(expired when `exp <= now`), audience, issuer; the issuer/audience checks run
only when the verifier supplies those options. -/
def jwtVerify (ts : TokenStr) (secret : String) (issOpt audOpt : Option String)
    (now : Nat) : Except JwtError JwtClaims :=
  match ts with
  | .garbage _ => .error .malformed
  | .jwt t =>
    if t.key ≠ secret then .error .badSignature
    else if t.exp.any (fun e => decide (e ≤ now)) then .error .expired
    else if audOpt.any (fun a => t.aud != a) then .error .audienceMismatch
    else if issOpt.any (fun i => t.iss != i) then .error .issuerMismatch
    else .ok t.claims

/-- `generateToken` from jwt.utils.ts: throws when `JWT_SECRET` is unset,
otherwise signs `{id, email, role}` with
`expiresIn = JWT_EXPIRES_IN` (no `exp` claim when unset),
issuer `user-management-api`, audience `user-management-client`. -/
def generateToken (env : Env) (now : Nat) (payload : TokenPayload) :
    Except JwtError Jwt :=
  match env.jwtSecret with
  | none => .error .noSecret
  | some secret =>
    .ok { claims := .access payload
          iss := "user-management-api"
          aud := "user-management-client"
          iat := now
          exp := env.jwtExpiresIn.map (fun d => now + d)
          key := secret }

/-- The refresh-token lifetime hardcoded in `generateRefreshToken`:
`expiresIn: '30d'` = 30 · 24 · 3600 seconds. -/
def refreshLifetime : Nat := 2592000

/-- `generateRefreshToken` from jwt.utils.ts: throws when `JWT_SECRET` is
unset, otherwise signs `{id}` with `expiresIn: '30d'` and the same
issuer/audience tags. -/
def generateRefreshToken (env : Env) (now : Nat) (payload : RefreshTokenPayload) :
    Except JwtError Jwt :=
  match env.jwtSecret with
  | none => .error .noSecret
  | some secret =>
    .ok { claims := .refresh payload
          iss := "user-management-api"
          aud := "user-management-client"
          iat := now
          exp := some (now + refreshLifetime)
          key := secret }

/-- `verifyToken(token, isRefreshToken)` from jwt.utils.ts: throws when
`JWT_SECRET` is unset, otherwise calls `jwt.verify` with issuer and audience
options and returns whatever it decodes.  The `isRefreshToken` parameter is
declared in the source but never read: no kind check is performed. -/
def verifyToken (env : Env) (token : TokenStr) (isRefreshToken : Bool)
    (now : Nat) : Except JwtError JwtClaims :=
  match env.jwtSecret with
  | none => .error .noSecret
  | some secret =>
    let _ := isRefreshToken
    jwtVerify token secret (some "user-management-api")
      (some "user-management-client") now

/-- A stored user record (the fields of the Mongoose `User` model that the
auth flows read; `password` is the bcrypt digest, selected via
`.select('+password')`). -/
structure UserRec where
  id : String
  email : String
  username : String
  password : String
  role : String
  isActive : Bool
deriving DecidableEq

/-- Model of JavaScript `String.prototype.toLowerCase` : per-character case
folding (ASCII, via `Char.toLower`). -/
def toLowerStr (s : String) : String := String.mk (s.data.map Char.toLower)

/-- `User.findOne({$or: [{email: email?.toLowerCase()}, {username}]})` over the
store: first record whose stored email equals the lowercased input email or
whose username equals the input username. -/
def findUser (db : List UserRec) (email username : String) : Option UserRec :=
  db.find? (fun u => u.email == toLowerStr email || u.username == username)

/-- `User.findById(id)` over the store. -/
def findById (db : List UserRec) (id : String) : Option UserRec :=
  db.find? (fun u => u.id == id)

/-- Result of the `login` route handler: an HTTP error response
(status, message), the 400 validation-errors response (which carries an
errors array, not a message), or the 200 success response with the token
pair. -/
inductive LoginOutcome where
  | validationFailed
  | err (status : Nat) (message : String)
  | ok (status : Nat) (message : String) (accessToken refreshToken : Jwt)
deriving DecidableEq

/-- `login` from authController.ts.  `cmp` is the `bcrypt.compare` oracle
(candidate secret, stored digest); `validationOk` is the express-validator
outcome; `saveOk` models whether `user.save()` (persisting
`lastLogin = new Date()`) succeeds — when it rejects, the `await` throws and
the surrounding `catch` sends the generic 500 response.  Steps in source
order: validation → lookup → isActive check → password check → token
generation → lastLogin save → 200. -/
def login (env : Env) (db : List UserRec) (cmp : String → String → Bool)
    (validationOk saveOk : Bool) (now : Nat)
    (email username password : String) : LoginOutcome :=
  if !validationOk then .validationFailed
  else
    match findUser db email username with
    | none => .err 401 "Invalid credentials"
    | some user =>
      if !user.isActive then
        .err 403 "Your account has been deactivated. Please contact support."
      else if !cmp password user.password then
        .err 401 "Invalid credentials"
      else
        match generateToken env now
            { id := user.id, email := user.email, role := user.role } with
        | .error _ => .err 500 "Failed to login"
        | .ok accessToken =>
          match generateRefreshToken env now { id := user.id } with
          | .error _ => .err 500 "Failed to login"
          | .ok refreshTok =>
            if !saveOk then .err 500 "Failed to login"
            else .ok 200 "Login successful" accessToken refreshTok

/-- The `id` field read off the decoded payload by
`const decoded = verifyToken(refreshToken, true) as { id: string }`:
both payload shapes carry an `id`, so the cast-and-read succeeds on either. -/
def claimsId : JwtClaims → String
  | .access p => p.id
  | .refresh p => p.id

/-- Result of the `refreshToken` route handler. -/
inductive RefreshOutcome where
  | err (status : Nat) (message : String)
  | ok (status : Nat) (message : String) (accessToken : Jwt)
deriving DecidableEq

/-- `refreshToken` from authController.ts: 400 when the body carries no token;
otherwise verify (any throw, including a missing secret during the later
`generateToken`, lands in the catch that sends 401 "Invalid refresh token"),
re-resolve the user by the decoded `id` (404 when gone), and issue a new
access token from the current record.  The record's `isActive` flag is never
consulted. -/
def refreshTokenOp (env : Env) (db : List UserRec) (now : Nat)
    (body : Option TokenStr) : RefreshOutcome :=
  match body with
  | none => .err 400 "Refresh token is required"
  | some ts =>
    match verifyToken env ts true now with
    | .error _ => .err 401 "Invalid refresh token"
    | .ok decoded =>
      match findById db (claimsId decoded) with
      | none => .err 404 "User not found"
      | some user =>
        match generateToken env now
            { id := user.id, email := user.email, role := user.role } with
        | .error _ => .err 401 "Invalid refresh token"
        | .ok newAccessToken =>
          .ok 200 "Token refreshed successfully" newAccessToken

/-- The `Authorization` header of an inbound request: absent, present but not
of the form `Bearer <token>` (carrying whatever its second space-separated
word is, if any), or `Bearer <token-string>`. -/
inductive AuthzHeader where
  | missing
  | nonBearer (secondWord : Option TokenStr)
  | bearer (ts : TokenStr)
deriving DecidableEq

/-- Token extraction in authMiddleware.ts:
`authHeader && authHeader.startsWith('Bearer ') ? authHeader.substring(7) : null`. -/
def extractBearerToken : AuthzHeader → Option TokenStr
  | .bearer ts => some ts
  | _ => none

/-- Token extraction in auth.ts (`protectRoute`):
`req.headers.authorization?.split(' ')[1]` — the second space-separated word
of the header, whatever the scheme. -/
def splitSecondWord : AuthzHeader → Option TokenStr
  | .missing => none
  | .nonBearer w => w
  | .bearer ts => some ts

/-- Result of a guard middleware on one inbound call: an error response sent
(terminal), or `next()` reached with `req.user` holding the attached claims
(or nothing). -/
inductive GuardOutcome where
  | rejected (status : Nat) (message : String)
  | proceed (user : Option JwtClaims)
deriving DecidableEq

/-- `authenticate` from authMiddleware.ts: 401 without a bearer token; verify
(any throw, including a missing secret, lands in the catch that sends 401
"Invalid or expired token"); on success attach the decoded claims and call
`next()`. -/
def authenticate (env : Env) (now : Nat) (h : AuthzHeader) : GuardOutcome :=
  match extractBearerToken h with
  | none => .rejected 401 "Access token is required"
  | some ts =>
    match verifyToken env ts false now with
    | .error _ => .rejected 401 "Invalid or expired token"
    | .ok decoded => .proceed (some decoded)

/-- The `role` property read off `req.user`: present on an access-shaped
payload, `undefined` on a refresh-shaped one. -/
def claimsRole : JwtClaims → Option String
  | .access p => some p.role
  | .refresh _ => none

/-- `authorize(roles)` from authMiddleware.ts: 401 "Authentication required"
when no `req.user` is attached; 403 when `roles.includes(req.user.role)` is
false (so also whenever `roles` is empty, or `role` is `undefined`);
otherwise `next()` with `req.user` untouched. -/
def authorize (roles : List String) (user : Option JwtClaims) : GuardOutcome :=
  match user with
  | none => .rejected 401 "Authentication required"
  | some u =>
    match claimsRole u with
    | some r =>
      if roles.contains r then .proceed (some u)
      else .rejected 403 "You do not have permission to access this resource"
    | none => .rejected 403 "You do not have permission to access this resource"

/-- `optionalAuth` from authMiddleware.ts: with no bearer token, `next()` with
nothing attached; with one, try to verify and attach, and on any throw the
catch comment says "Continue without authentication" — `next()` with nothing
attached and no response sent. -/
def optionalAuth (env : Env) (now : Nat) (h : AuthzHeader) : GuardOutcome :=
  match extractBearerToken h with
  | none => .proceed none
  | some ts =>
    match verifyToken env ts false now with
    | .error _ => .proceed none
    | .ok decoded => .proceed (some decoded)

/-- `protectRoute` from auth.ts: 401 when the split yields no token; 500
"Server configuration error" when `JWT_SECRET` is unset (a per-call response,
sent before verification); then `jwt.verify(token, secret)` with no
issuer/audience options, 401 on any verification error. -/
def protectRoute (env : Env) (now : Nat) (h : AuthzHeader) : GuardOutcome :=
  match splitSecondWord h with
  | none => .rejected 401 "No token provided, authorization denied"
  | some ts =>
    match env.jwtSecret with
    | none => .rejected 500 "Server configuration error"
    | some secret =>
      match jwtVerify ts secret none none now with
      | .error _ => .rejected 401 "Invalid or expired token"
      | .ok decoded => .proceed (some decoded)

/-! Concrete fixtures used by witnesses and counterexamples. -/

/-- A configured environment: secret set, access-token lifetime one hour. -/
def envW : Env := { jwtSecret := some "test-secret", jwtExpiresIn := some 3600 }

/-- An environment with no `JWT_SECRET` configured. -/
def envNoKey : Env := { jwtSecret := none, jwtExpiresIn := some 3600 }

/-- An active user. -/
def uW : UserRec :=
  { id := "u1", email := "a@x.com", username := "alice", password := "digest1"
    role := "user", isActive := true }

/-- A deactivated user. -/
def uInactive : UserRec :=
  { id := "u2", email := "b@x.com", username := "bob", password := "digest2"
    role := "user", isActive := false }

/-- The user store fixture. -/
def dbW : List UserRec := [uW, uInactive]

/-- A concrete `bcrypt.compare` oracle: `pw1` matches alice's digest and
`pw2` matches bob's. -/
def cmpW : String → String → Bool := fun secret digest =>
  (secret == "pw1" && digest == "digest1") || (secret == "pw2" && digest == "digest2")

/-- The access-token payload for alice. -/
def pW : TokenPayload := { id := "u1", email := "a@x.com", role := "user" }

/-- A valid access token for alice, issued at time 0 under `envW`. -/
def accessTokW : Jwt :=
  { claims := .access pW, iss := "user-management-api"
    aud := "user-management-client", iat := 0, exp := some 3600
    key := "test-secret" }

/-- A valid refresh token for bob (the deactivated user), issued at time 0
under `envW`. -/
def refreshTokW : Jwt :=
  { claims := .refresh { id := "u2" }, iss := "user-management-api"
    aud := "user-management-client", iat := 0, exp := some refreshLifetime
    key := "test-secret" }

/-! Theorems settling the claims. -/

/-- Claim C3: a login whose identifier resolves to no record and a login whose
identifier resolves to an active record but whose secret fails password
verification produce the same error response: status 401 with the generic
"Invalid credentials" message in both cases. -/
theorem login_enumeration_resistant
    (env : Env) (db : List UserRec) (cmp : String → String → Bool)
    (saveOk : Bool) (now : Nat) (e₁ un₁ p₁ e₂ un₂ p₂ : String) (u : UserRec)
    (h₁ : findUser db e₁ un₁ = none)
    (h₂ : findUser db e₂ un₂ = some u)
    (hact : u.isActive = true)
    (hcmp : cmp p₂ u.password = false) :
    login env db cmp true saveOk now e₁ un₁ p₁ = .err 401 "Invalid credentials" ∧
    login env db cmp true saveOk now e₂ un₂ p₂ = .err 401 "Invalid credentials" := by
  constructor
  · simp [login, h₁]
  · simp [login, h₂, hact, hcmp]

/-- Witness for C3: unknown identifier `nobody`, and alice with a wrong
secret, both get 401 "Invalid credentials". -/
theorem login_enumeration_resistant_witness :
    login envW dbW cmpW true true 0 "nobody@x.com" "nobody" "pw" =
      .err 401 "Invalid credentials" ∧
    login envW dbW cmpW true true 0 "a@x.com" "alice" "wrong" =
      .err 401 "Invalid credentials" :=
  login_enumeration_resistant envW dbW cmpW true 0
    "nobody@x.com" "nobody" "pw" "a@x.com" "alice" "wrong" uW
    (by decide) (by decide) (by decide) (by decide)

/-- Claim C6: a login whose identifier resolves to a deactivated record and
whose secret is correct returns the distinct 403 account-deactivated error,
not the generic 401 "Invalid credentials". -/
theorem inactive_account_distinct_error
    (env : Env) (db : List UserRec) (cmp : String → String → Bool)
    (saveOk : Bool) (now : Nat) (e un pw : String) (u : UserRec)
    (hu : findUser db e un = some u)
    (hinactive : u.isActive = false)
    (hcmp : cmp pw u.password = true) :
    login env db cmp true saveOk now e un pw =
      .err 403 "Your account has been deactivated. Please contact support." ∧
    login env db cmp true saveOk now e un pw ≠ .err 401 "Invalid credentials" := by
  have hres : login env db cmp true saveOk now e un pw =
      .err 403 "Your account has been deactivated. Please contact support." := by
    simp [login, hu, hinactive]
  exact ⟨hres, by rw [hres]; simp⟩

/-- Witness for C6: bob (deactivated) with his correct secret `pw2`. -/
theorem inactive_account_distinct_error_witness :
    login envW dbW cmpW true true 0 "b@x.com" "bob" "pw2" =
      .err 403 "Your account has been deactivated. Please contact support." ∧
    login envW dbW cmpW true true 0 "b@x.com" "bob" "pw2" ≠
      .err 401 "Invalid credentials" :=
  inactive_account_distinct_error envW dbW cmpW true 0 "b@x.com" "bob" "pw2"
    uInactive (by decide) (by decide) (by decide)

/-- Claim C10: when the identifier resolves to a deactivated record, the
account-deactivated error is returned for every password-comparison oracle
and every supplied secret: the inactive check precedes password
verification, so the response does not depend on the secret and the stored
digest is never compared. -/
theorem inactive_check_precedes_password
    (env : Env) (db : List UserRec) (saveOk : Bool) (now : Nat)
    (e un : String) (u : UserRec)
    (hu : findUser db e un = some u)
    (hinactive : u.isActive = false) :
    ∀ (cmp : String → String → Bool) (pw : String),
      login env db cmp true saveOk now e un pw =
        .err 403 "Your account has been deactivated. Please contact support." := by
  intro cmp pw
  simp [login, hu, hinactive]

/-- Witness for C10: bob (deactivated) gets the deactivated error under an
always-false comparison oracle and an arbitrary secret. -/
theorem inactive_check_precedes_password_witness :
    login envW dbW (fun _ _ => false) true true 0 "b@x.com" "bob" "anything" =
      .err 403 "Your account has been deactivated. Please contact support." :=
  inactive_check_precedes_password envW dbW true 0 "b@x.com" "bob" uInactive
    (by decide) (by decide) (fun _ _ => false) "anything"

/-- Counterexample to Claim C2: alice's token is valid (the authenticate
guard attaches her claims), yet `authorize` configured with the empty
required-role list rejects her with 403 Forbidden instead of authorizing
(`[].includes(role)` is always false). -/
theorem empty_roles_reject_authenticated :
    authenticate envW 0 (.bearer (.jwt accessTokW)) = .proceed (some (.access pW)) ∧
    authorize [] (some (.access pW)) =
      .rejected 403 "You do not have permission to access this resource" := by
  constructor
  · decide
  · decide

/-- Claim C2 (amended): with no attached identity `authorize` rejects 401
Unauthenticated; with an attached access identity it authorizes exactly when
the role claim is a member of the required-role list, rejecting 403 Forbidden
otherwise — in particular the empty list rejects every request with 403
(it does not mean "any authenticated identity"). -/
theorem authorize_membership_empty_forbids
    (roles : List String) (p : TokenPayload) :
    authorize roles none = .rejected 401 "Authentication required" ∧
    authorize roles (some (.access p)) =
      (if roles.contains p.role then .proceed (some (.access p))
       else .rejected 403 "You do not have permission to access this resource") ∧
    authorize [] (some (.access p)) =
      .rejected 403 "You do not have permission to access this resource" := by
  refine ⟨rfl, ?_, rfl⟩
  simp [authorize, claimsRole]

/-- Counterexample to Claim C4: alice logs in with the correct secret, every
token is issued, but the `await user.save()` persisting `lastLogin` fails —
and the login returns the generic 500 "Failed to login" instead of the
successful result with both tokens: the save is not best-effort, its failure
fails the login. -/
theorem lastlogin_save_failure_fails_login :
    login envW dbW cmpW true false 0 "a@x.com" "alice" "pw1" =
      .err 500 "Failed to login" := by
  decide

/-- Claim C4 (amended): when the identifier resolves to an active record,
password verification succeeds and both tokens are issued, a failure to
persist the last-login update makes the whole login fail with the generic
500 "Failed to login" response; the token pair is not returned. -/
theorem lastlogin_save_failure_maps_to_500
    (env : Env) (db : List UserRec) (cmp : String → String → Bool)
    (now : Nat) (e un pw s : String) (u : UserRec)
    (hu : findUser db e un = some u)
    (hact : u.isActive = true)
    (hcmp : cmp pw u.password = true)
    (hs : env.jwtSecret = some s) :
    login env db cmp true false now e un pw = .err 500 "Failed to login" := by
  simp [login, hu, hact, hcmp, generateToken, generateRefreshToken, hs]

/-- Witness for the amended C4: alice under the configured environment. -/
theorem lastlogin_save_failure_maps_to_500_witness :
    login envW dbW cmpW true false 0 "a@x.com" "alice" "pw1" ≠
      .ok 200 "Login successful" accessTokW refreshTokW :=
  fun hcontra => by
    have h := lastlogin_save_failure_maps_to_500 envW dbW cmpW 0
      "a@x.com" "alice" "pw1" "test-secret" uW (by decide) (by decide)
      (by decide) (by decide)
    rw [h] at hcontra
    exact LoginOutcome.noConfusion hcontra

/-- Counterexample to Claim C5: with no signing key configured, the process
has no startup gate (nothing in `app.ts` reads `JWT_SECRET`), and the
absence of the key surfaces as per-call error results: alice's otherwise
valid login gets the per-call 500 "Failed to login", `verifyToken` fails
per call with the missing-secret error, the `authenticate` guard sends a
per-call 401, and `protectRoute` sends a per-call 500 configuration error. -/
theorem missing_key_surfaces_per_call :
    login envNoKey dbW cmpW true true 0 "a@x.com" "alice" "pw1" =
      .err 500 "Failed to login" ∧
    verifyToken envNoKey (.jwt accessTokW) false 0 = .error .noSecret ∧
    authenticate envNoKey 0 (.bearer (.jwt accessTokW)) =
      .rejected 401 "Invalid or expired token" ∧
    protectRoute envNoKey 0 (.bearer (.jwt accessTokW)) =
      .rejected 500 "Server configuration error" := by
  refine ⟨by decide, rfl, rfl, rfl⟩

/-- Claim C5 (amended): the absence of the signing key is not checked at
startup; it is surfaced as a per-call error by every operation that touches
the key: `generateToken` and `verifyToken` fail with the missing-secret
error, a login that reaches token issuance returns the generic 500,
`authenticate` rejects the call with 401, and `protectRoute` rejects it
with the 500 configuration error. -/
theorem missing_key_is_per_call
    (env : Env) (db : List UserRec) (cmp : String → String → Bool)
    (saveOk : Bool) (now : Nat) (e un pw : String) (u : UserRec)
    (p : TokenPayload) (ts : TokenStr) (b : Bool)
    (hs : env.jwtSecret = none)
    (hu : findUser db e un = some u)
    (hact : u.isActive = true)
    (hcmp : cmp pw u.password = true) :
    generateToken env now p = .error .noSecret ∧
    verifyToken env ts b now = .error .noSecret ∧
    login env db cmp true saveOk now e un pw = .err 500 "Failed to login" ∧
    authenticate env now (.bearer ts) = .rejected 401 "Invalid or expired token" ∧
    protectRoute env now (.bearer ts) = .rejected 500 "Server configuration error" := by
  refine ⟨?_, ?_, ?_, ?_, ?_⟩
  · simp [generateToken, hs]
  · simp [verifyToken, hs]
  · simp [login, hu, hact, hcmp, generateToken, hs]
  · simp [authenticate, extractBearerToken, verifyToken, hs]
  · simp [protectRoute, splitSecondWord, hs]

/-- Witness for the amended C5: the keyless environment with alice's login
and token. -/
theorem missing_key_is_per_call_witness :
    generateToken envNoKey 0 pW = .error .noSecret ∧
    verifyToken envNoKey (.jwt accessTokW) false 0 = .error .noSecret ∧
    login envNoKey dbW cmpW true true 0 "a@x.com" "alice" "pw1" =
      .err 500 "Failed to login" ∧
    authenticate envNoKey 0 (.bearer (.jwt accessTokW)) =
      .rejected 401 "Invalid or expired token" ∧
    protectRoute envNoKey 0 (.bearer (.jwt accessTokW)) =
      .rejected 500 "Server configuration error" :=
  missing_key_is_per_call envNoKey dbW cmpW true 0 "a@x.com" "alice" "pw1"
    uW pW (.jwt accessTokW) false (by decide) (by decide) (by decide) (by decide)

/-- Claim C1 is violated by the code (`verifyToken` declares but never reads
its `isRefreshToken` parameter, so no kind check exists): the refresh
operation called with alice's valid access token succeeds and mints a new
access token instead of failing with a wrong-kind error, and the
authenticate guard called with bob's refresh token accepts it and attaches
its claims instead of failing with a wrong-kind error. -/
theorem wrong_kind_tokens_accepted :
    refreshTokenOp envW dbW 0 (some (.jwt accessTokW)) =
      .ok 200 "Token refreshed successfully" accessTokW ∧
    authenticate envW 0 (.bearer (.jwt refreshTokW)) =
      .proceed (some (.refresh { id := "u2" })) := by
  exact ⟨by decide, by decide⟩

/-- Claim C7: a token issued at `now` with claims `c` and kind `k` verifies
to exactly `c` at `now + ε` while `ε` is within the kind's lifetime (the
configured `JWT_EXPIRES_IN` for access tokens, 30 days for refresh tokens),
and fails with the expired-token error once `ε` reaches past it. -/
theorem issue_verify_roundtrip
    (env : Env) (now ε L : Nat) (p : TokenPayload) (q : RefreshTokenPayload)
    (s : String) (hs : env.jwtSecret = some s) (hL : env.jwtExpiresIn = some L) :
    (∀ tok, generateToken env now p = .ok tok →
      (ε < L → verifyToken env (.jwt tok) false (now + ε) = .ok (.access p)) ∧
      (L ≤ ε → verifyToken env (.jwt tok) false (now + ε) = .error .expired)) ∧
    (∀ tok, generateRefreshToken env now q = .ok tok →
      (ε < refreshLifetime → verifyToken env (.jwt tok) true (now + ε) = .ok (.refresh q)) ∧
      (refreshLifetime ≤ ε → verifyToken env (.jwt tok) true (now + ε) = .error .expired)) := by
  constructor
  · intro tok htok
    simp [generateToken, hs, hL] at htok
    constructor
    · intro hlt
      simp [verifyToken, hs, jwtVerify, ← htok]
      omega
    · intro hle
      simp [verifyToken, hs, jwtVerify, ← htok]
      omega
  · intro tok htok
    simp [generateRefreshToken, hs] at htok
    constructor
    · intro hlt
      simp [verifyToken, hs, jwtVerify, ← htok]
      omega
    · intro hle
      simp [verifyToken, hs, jwtVerify, ← htok]
      omega

/-- Witness for C7: under `envW` (lifetime 3600 s) a token issued at time
1000 still verifies at 1001 and is expired at 4600. -/
theorem issue_verify_roundtrip_witness :
    (∀ tok, generateToken envW 1000 pW = .ok tok →
      verifyToken envW (.jwt tok) false 1001 = .ok (.access pW)) ∧
    (∀ tok, generateToken envW 1000 pW = .ok tok →
      verifyToken envW (.jwt tok) false 4600 = .error .expired) := by
  constructor
  · intro tok htok
    exact ((issue_verify_roundtrip envW 1000 1 3600 pW { id := "u1" }
      "test-secret" rfl rfl).1 tok htok).1 (by decide)
  · intro tok htok
    exact ((issue_verify_roundtrip envW 1000 3600 3600 pW { id := "u1" }
      "test-secret" rfl rfl).1 tok htok).2 (by decide)

/-- Claim C8: in optional-auth mode, whenever no bearer token is supplied or
the supplied token fails verification for any reason, the call proceeds to
the downstream handler with no claims attached and no error response sent:
the outcome is exactly `proceed none`, carrying no failure reason. -/
theorem optionalAuth_failure_proceeds_unattached
    (env : Env) (now : Nat) (h : AuthzHeader)
    (hfail : ∀ ts, extractBearerToken h = some ts →
      ∃ e, verifyToken env ts false now = .error e) :
    optionalAuth env now h = .proceed none := by
  unfold optionalAuth
  cases hx : extractBearerToken h with
  | none => rfl
  | some ts =>
    obtain ⟨e, he⟩ := hfail ts hx
    simp [he]

/-- Witness for C8: the spec scenario — optional mode with no token at all
proceeds with nothing attached. -/
theorem optionalAuth_failure_proceeds_unattached_witness :
    optionalAuth envW 0 .missing = .proceed none :=
  optionalAuth_failure_proceeds_unattached envW 0 .missing
    (fun ts hts => by simp [extractBearerToken] at hts)

/-- Claim C9: the refresh operation never consults the record's `isActive`
flag: for a deactivated user whose refresh token still verifies, refresh
succeeds and issues a new access token. -/
theorem refresh_ignores_isActive
    (env : Env) (db : List UserRec) (now : Nat) (ts : TokenStr)
    (u : UserRec) (s : String)
    (hs : env.jwtSecret = some s)
    (hver : verifyToken env ts true now = .ok (.refresh { id := u.id }))
    (hu : findById db u.id = some u)
    (hinactive : u.isActive = false) :
    ∃ t, refreshTokenOp env db now (some ts) =
      .ok 200 "Token refreshed successfully" t := by
  refine ⟨{ claims := .access { id := u.id, email := u.email, role := u.role }
            iss := "user-management-api", aud := "user-management-client"
            iat := now, exp := env.jwtExpiresIn.map (fun d => now + d)
            key := s }, ?_⟩
  simp [refreshTokenOp, hver, claimsId, hu, generateToken, hs]

/-- Witness for C9: bob is deactivated, yet his refresh token mints a new
access token. -/
theorem refresh_ignores_isActive_witness :
    uInactive.isActive = false ∧
    ∃ t, refreshTokenOp envW dbW 0 (some (.jwt refreshTokW)) =
      .ok 200 "Token refreshed successfully" t :=
  ⟨by decide,
   refresh_ignores_isActive envW dbW 0 (.jwt refreshTokW) uInactive
     "test-secret" rfl rfl (by decide) (by decide)⟩

end ProtectedRoutes
